import Mathlib

/-!
Verification development for the simple-asr capture/hotkey/delivery pipeline.

The Lean definitions below are shallow embeddings of the Python sources:
`simple_asr/audio.py` (AudioRecorder), `simple_asr/hotkeys.py`
(HotkeyTranscriber), `simple_asr/app.py` (SimpleASRApp.apply_settings) and
`simple_asr/vocabulary.py` (load_vocabulary / save_vocabulary).

Side effects are made explicit: stateful methods become functions from a
state record to a state record, failures of the outside world (the audio
subsystem, the filesystem, the clipboard) become boolean parameters, and the
observable calls a method makes (recorder.start, file deletion, clipboard
writes, keystrokes, ...) are collected into an action list so that theorems
can speak about which calls happen and how often.
-/

namespace SimpleASR

/-! ### AudioRecorder (src/simple_asr/audio.py)

A captured frame buffer is modelled as a list of samples; `sd.InputStream`
is modelled by its one observable attribute, `active`.  Methods that can
re-raise return a `Bool` flag which is `true` exactly when the Python method
lets an exception escape to the caller. -/

/-- One frame buffer delivered by the audio callback (`indata.copy()`). -/
abbrev Frame := List Int

/-- Model of `sounddevice.InputStream`: only its `active` flag is observable
to `audio.py`. -/
structure AStream where
  active : Bool
deriving DecidableEq, Repr

/-- Model of `AudioRecorder.__init__`: `_stream`, `_frames`, `sample_rate`
(the `_frames_lock` serialises access and has no sequential content). -/
structure Recorder where
  stream : Option AStream
  frames : List Frame
  sampleRate : Nat
deriving DecidableEq, Repr

/-- `AudioRecorder(sample_rate)`: fresh recorder with no stream and no
buffered frames. -/
def Recorder.init (sampleRate : Nat) : Recorder :=
  { stream := none, frames := [], sampleRate := sampleRate }

/-- The `try: self._stream.start() ... except: close; self._stream = None;
raise` tail of `AudioRecorder.start` (audio.py lines 41-52). `startFails`
says whether the underlying `stream.start()` call raises; the returned flag
is `true` when the exception is re-raised to the caller. -/
def Recorder.startStream (r : Recorder) (startFails : Bool) : Recorder × Bool :=
  if startFails then ({ r with stream := none }, true)
  else ({ r with stream := some { active := true } }, false)

/-- `AudioRecorder.start` (audio.py lines 28-52): create the stream if
absent; if a stream exists and is active, return without touching anything;
otherwise clear `_frames` under the lock and start the stream. -/
def Recorder.start (r : Recorder) (startFails : Bool) : Recorder × Bool :=
  match r.stream with
  | some s =>
      if s.active then (r, false)
      else Recorder.startStream { r with frames := [] } startFails
  | none =>
      Recorder.startStream
        { r with stream := some { active := false }, frames := [] } startFails

/-- `AudioRecorder.stop` (audio.py lines 54-78). `stopFails` says whether the
underlying `stream.stop()` raises (that exception is caught and only
logged); `writeFails` says whether `_write_temp_wav` raises (that exception
is NOT caught). Result: post state, the persisted audio content (`none`
when no file is created, `some audio` standing for the temporary file whose
content is `audio`), and whether an exception escaped to the caller. -/
def Recorder.stop (r : Recorder) (stopFails writeFails : Bool) :
    Recorder × Option (List Int) × Bool :=
  match r.stream with
  | none => (r, none, false)
  | some s =>
      let r :=
        if s.active && !stopFails then { r with stream := some { active := false } }
        else r
      if r.frames = [] then (r, none, false)
      else
        let audio := r.frames.flatten
        let r := { r with frames := [] }
        if writeFails then (r, none, true)
        else (r, some audio, false)

/-- `AudioRecorder.close` (audio.py lines 80-93): best-effort stop/close of
any held stream (`closeFails` says whether those calls raise; the exception
is caught and only logged), then the handle is dropped and `_frames`
cleared. The method never re-raises, so no raised-flag is returned. -/
def Recorder.close (r : Recorder) ( closeFails : Bool) : Recorder :=
  match r.stream with
  | none => { r with frames := [] }
  | some _ =>
      let _ := closeFails
      { r with stream := none, frames := [] }

/-- `AudioRecorder._callback` (audio.py lines 95-100): append a private copy
of the delivered buffer to `_frames` under the lock. -/
def Recorder.callback (r : Recorder) (indata : Frame) : Recorder :=
  { r with frames := r.frames ++ [indata] }

/-- A whole capture session: the callback fires once per delivered frame
buffer, in arrival order. -/
def Recorder.callbacks (r : Recorder) (ds : List Frame) : Recorder :=
  ds.foldl Recorder.callback r

/-- `true` iff the recorder currently holds an active stream. -/
def Recorder.hasActiveStream (r : Recorder) : Bool :=
  match r.stream with
  | some s => s.active
  | none => false

/-! ### HotkeyTranscriber (src/simple_asr/hotkeys.py)

Keyboard events are modelled by `PKey` (pynput delivers either a
`keyboard.Key` member — the ctrl variants or another named special key — or
a `KeyCode` that may or may not carry a character).  The transcriber state
`HK` carries the fields of `HotkeyTranscriber.__init__` that the handlers
read or write; the observable calls a handler makes are collected into a
`List HAct`.  What the outside world does (whether `recorder.start()`
raises, what `recorder.stop()` returns, whether `Path.unlink` raises) is an
`HEnv` input. -/

/-- Python `str.strip()` (whitespace stripped from both ends). -/
def pyStrip (s : String) : String :=
  String.mk (((s.data.dropWhile Char.isWhitespace).reverse.dropWhile
    Char.isWhitespace).reverse)

/-- Python `str.lower()` (character-wise; ASCII model). -/
def pyLower (s : String) : String :=
  String.mk (s.data.map Char.toLower)

/-- Python `str.upper()` (character-wise; ASCII model). -/
def pyUpper (s : String) : String :=
  String.mk (s.data.map Char.toUpper)

/-- `_build_special_key_map` (hotkeys.py lines 22-38): hotkey names mapped to
the identity of the `keyboard.Key` member (note `return` ↦ `enter` and
`escape` ↦ `esc`, and the f1..f12 loop unrolled). -/
def SPECIAL_KEYS : List (String × String) :=
  [("space", "space"), ("enter", "enter"), ("return", "enter"), ("tab", "tab"),
   ("esc", "esc"), ("escape", "esc"),
   ("f1", "f1"), ("f2", "f2"), ("f3", "f3"), ("f4", "f4"), ("f5", "f5"),
   ("f6", "f6"), ("f7", "f7"), ("f8", "f8"), ("f9", "f9"), ("f10", "f10"),
   ("f11", "f11"), ("f12", "f12")]

/-- `KeyType = Union[keyboard.Key, str]`: a normalized hotkey is either a
named special key or a one-character lowercase string. -/
inductive KeyType where
  | special (name : String)
  | char (s : String)
deriving DecidableEq, Repr

/-- `HotkeyTranscriber._normalize_hotkey` (hotkeys.py lines 93-104). -/
def normalizeHotkey (hotkey : String) : Except String (KeyType × String) :=
  let key := pyLower (pyStrip hotkey)
  if key = "" then Except.error "Hotkey must not be empty."
  else
    match SPECIAL_KEYS.lookup key with
    | some k => Except.ok (KeyType.special k, pyUpper key)
    | none =>
        if key.length = 1 then Except.ok (KeyType.char key, pyUpper key)
        else Except.error ("Unsupported hotkey " ++ hotkey)

/-- ASCII-printable character (0x20..0x7e). -/
def isPrintableAscii (c : Char) : Bool :=
  decide (0x20 ≤ c.toNat) && decide (c.toNat ≤ 0x7e)

/-- Modelled from the words of the C8 claim (not from the code): the
supported hotkey strings it enumerates are the named keys (space,
enter/return, tab, esc/escape, f1-f12) and any single printable character,
up to case and surrounding whitespace. -/
def claimSupportedHotkey (s : String) : Bool :=
  let k := pyLower (pyStrip s)
  (SPECIAL_KEYS.lookup k).isSome ||
    (match k.data with
     | [c] => isPrintableAscii c
     | _ => false)

/-- A key event as delivered by pynput: a ctrl modifier, another named
`keyboard.Key` member, or a `KeyCode` with or without a character. -/
inductive PKey where
  | ctrl | ctrlL | ctrlR
  | special (name : String)
  | charKey (c : String)
  | noChar
deriving DecidableEq, Repr

/-- `getattr(key, "char", None)`: only `KeyCode`s carry a character. -/
def PKey.char : PKey → Option String
  | .charKey c => some c
  | _ => none

/-- `key in (Key.ctrl, Key.ctrl_l, Key.ctrl_r)`. -/
def PKey.isCtrlKey : PKey → Bool
  | .ctrl => true
  | .ctrlL => true
  | .ctrlR => true
  | _ => false

/-- `HotkeyTranscriber._matches_hotkey` (hotkeys.py lines 106-114): identity
match for a named key; otherwise compare the event character,
lower-cased, with the configured character (no character ⇒ no match). -/
def matchesHotkey (target : KeyType) (k : PKey) : Bool :=
  match target with
  | .special n => decide (k = PKey.special n)
  | .char t =>
      match k.char with
      | some c => decide (pyLower c = t)
      | none => false

/-- `char and char.lower() == "c"` in `_on_press` (empty strings are falsy in
Python, hence the nonemptiness test). -/
def isCharC (k : PKey) : Bool :=
  match k.char with
  | some c => (!decide (c = "")) && decide (pyLower c = "c")
  | none => false

/-- The mutable `HotkeyTranscriber` fields that the handlers touch.
`stopEventSet` models `self._stop_event`, `hasListener` whether
`self._listener` is currently a live listener, and the three `...At` fields
the `time.perf_counter()` timestamps (abstracted to `Nat`). -/
structure HK where
  hotkey : KeyType
  recording : Bool
  ctrlActive : Bool
  shutdownRequested : Bool
  stopEventSet : Bool
  hasListener : Bool
  recordStartedAt : Option Nat
  recordStoppedAt : Option Nat
  transcribeStartedAt : Option Nat
deriving DecidableEq, Repr

/-- Observable calls made by the handlers. `dispatchTranscription p` is the
start of the background `threading.Thread` on the temporary file `p`
(temporary files abstracted to `Nat` identifiers); `escapedException` marks
an exception propagating out of the handler (the `recorder.stop()` calls at
hotkeys.py lines 167 and 279 sit outside any try, so a temp-file
persistence failure inside `AudioRecorder.stop` — `writeFails` in the
recorder model above — escapes). -/
inductive HAct where
  | recorderStart
  | recorderStop
  | dispatchTranscription (p : Nat)
  | unlinkFile (p : Nat)
  | logUnlinkFail (p : Nat)
  | listenerStop
  | printRecording
  | printNoAudio
  | printStartError
  | escapedException
deriving DecidableEq, Repr

instance {ε α : Type} [DecidableEq ε] [DecidableEq α] :
    DecidableEq (Except ε α) := fun a b =>
  match a, b with
  | Except.error e, Except.error f =>
      if h : e = f then isTrue (congrArg Except.error h)
      else isFalse (fun hh => h (Except.error.inj hh))
  | Except.ok x, Except.ok y =>
      if h : x = y then isTrue (congrArg Except.ok h)
      else isFalse (fun hh => h (Except.ok.inj hh))
  | Except.error _, Except.ok _ => isFalse (fun hh => Except.noConfusion hh)
  | Except.ok _, Except.error _ => isFalse (fun hh => Except.noConfusion hh)

/-- Environment of one handler invocation: whether `recorder.start()`
raises (that exception is caught in `_on_press`), what `recorder.stop()`
does — `Except.error ()` when it raises (the temp-file write failure of
`AudioRecorder.stop`), `Except.ok` the returned optional path otherwise —
and whether `Path.unlink` raises. -/
structure HEnv where
  recorderStartOk : Bool
  recorderStop : Except Unit (Option Nat)
  unlinkOk : Bool
deriving DecidableEq, Repr

/-- Tail of `_request_shutdown` (hotkeys.py lines 289-297), reached only
when the recorder was not recording or `recorder.stop()` returned: clear
the recording flag again, reset the three timestamps, set the stop event
and ask the listener to stop. -/
def requestShutdownFinish (s : HK) (acts : List HAct) : HK × List HAct :=
  ({ s with recording := false,
            recordStartedAt := none,
            recordStoppedAt := none,
            transcribeStartedAt := none,
            stopEventSet := true },
   acts ++ (if s.hasListener then [HAct.listenerStop] else []))

/-- `HotkeyTranscriber._request_shutdown` (hotkeys.py lines 268-297): a
second trigger is a no-op; otherwise set the latch and clear the recording
flag, then, if it was recording, call `recorder.stop()` (line 279, outside
any try: if it raises, the exception escapes here and the resets of lines
289-297 never run) and delete — never transcribe — any file it returned;
finally reset the timestamps, set the stop event and stop the listener. -/
def requestShutdown (s : HK) (env : HEnv) : HK × List HAct :=
  if s.shutdownRequested then (s, [])
  else
    let wasRecording := s.recording
    let s := { s with shutdownRequested := true, recording := false }
    if wasRecording then
      match env.recorderStop with
      | Except.error _ => (s, [HAct.recorderStop, HAct.escapedException])
      | Except.ok none => requestShutdownFinish s [HAct.recorderStop]
      | Except.ok (some p) =>
          if env.unlinkOk then
            requestShutdownFinish s [HAct.recorderStop, HAct.unlinkFile p]
          else
            requestShutdownFinish s
              [HAct.recorderStop, HAct.unlinkFile p, HAct.logUnlinkFail p]
    else requestShutdownFinish s []

/-- `HotkeyTranscriber._on_press` (hotkeys.py lines 116-149). `now` is the
current `time.perf_counter()` value. -/
def onPress (s : HK) (k : PKey) (env : HEnv) (now : Nat) : HK × List HAct :=
  let s := if k.isCtrlKey then { s with ctrlActive := true } else s
  if s.ctrlActive && isCharC k then requestShutdown s env
  else if s.shutdownRequested then (s, [])
  else if !matchesHotkey s.hotkey k then (s, [])
  else if s.recording then (s, [])
  else
    let s := { s with recording := true,
                      recordStartedAt := some now,
                      recordStoppedAt := none,
                      transcribeStartedAt := none }
    if env.recorderStartOk then (s, [HAct.recorderStart, HAct.printRecording])
    else ({ s with recording := false }, [HAct.recorderStart, HAct.printStartError])

/-- `HotkeyTranscriber._on_release` (hotkeys.py lines 151-173; the
`recorder.stop()` call on line 167 is outside any try, so if it raises the
exception escapes the handler and nothing is dispatched). -/
def onRelease (s : HK) (k : PKey) (env : HEnv) (now : Nat) : HK × List HAct :=
  let s := if k.isCtrlKey then { s with ctrlActive := false } else s
  if s.shutdownRequested then (s, [])
  else if !matchesHotkey s.hotkey k then (s, [])
  else if !s.recording then (s, [])
  else
    let s := { s with recording := false, recordStoppedAt := some now }
    match env.recorderStop with
    | Except.error _ => (s, [HAct.recorderStop, HAct.escapedException])
    | Except.ok none => (s, [HAct.recorderStop, HAct.printNoAudio])
    | Except.ok (some p) => (s, [HAct.recorderStop, HAct.dispatchTranscription p])

/-- One event processed by the transcriber: a key press, a key release, or
an explicit external `stop()` call (which is `_request_shutdown`). -/
inductive HEvent where
  | press (k : PKey) (env : HEnv) (now : Nat)
  | release (k : PKey) (env : HEnv) (now : Nat)
  | stopCall (env : HEnv)
deriving DecidableEq, Repr

def hstep (s : HK) : HEvent → HK × List HAct
  | .press k env now => onPress s k env now
  | .release k env now => onRelease s k env now
  | .stopCall env => requestShutdown s env

/-- Process a whole event sequence, concatenating the observable calls. An
exception escaping a pynput callback stops the listener, so event delivery
ends at the first step whose handler lets an exception escape. -/
def hrun (s : HK) : List HEvent → HK × List HAct
  | [] => (s, [])
  | e :: es =>
      if HAct.escapedException ∈ (hstep s e).2 then hstep s e
      else ((hrun (hstep s e).1 es).1, (hstep s e).2 ++ (hrun (hstep s e).1 es).2)

/-- `HotkeyTranscriber.__init__` (hotkeys.py lines 44-65): not recording, no
ctrl held, latch unset, stop event unset, no listener, no timestamps. -/
def HK.init (hotkey : KeyType) : HK :=
  { hotkey := hotkey, recording := false, ctrlActive := false,
    shutdownRequested := false, stopEventSet := false, hasListener := false,
    recordStartedAt := none, recordStoppedAt := none,
    transcribeStartedAt := none }

/-- `HotkeyTranscriber.start` (hotkeys.py lines 67-91) blocks on
`self._stop_event.wait()`: it can return only once the stop event is set. -/
def startCallUnblocked (s : HK) : Bool :=
  s.stopEventSet

/-- After `start`'s wait returns, a `KeyboardInterrupt` is raised to the
caller exactly when the shutdown latch is set (hotkeys.py lines 90-91);
this is how the blocking call reports the shutdown outcome. -/
def startCallReportsShutdown (s : HK) : Bool :=
  s.shutdownRequested

/-! ### Background transcription unit and delivery (hotkeys.py) -/

/-- Observable actions of `HotkeyTranscriber._transcribe` (hotkeys.py lines
182-205). `deliver t` is the call into `_deliver_transcript`. -/
inductive TAct where
  | printTranscribing
  | logTranscribeError (e : String)
  | printTranscribeError (e : String)
  | unlink
  | logUnlinkFail
  | observerCallback (t : String)
  | deliver (t : String)
deriving DecidableEq, Repr

/-- `HotkeyTranscriber._transcribe` on a temporary audio file: `result` is
what `provider.transcribe` does (returns text or raises), `unlinkOk` whether
`audio_path.unlink()` succeeds (an `OSError` there is caught and logged),
`hasObserver` whether an `on_transcription` callback was configured. The
function is total: no exception escapes the background unit. -/
def transcribeUnit (result : Except String String) (unlinkOk : Bool)
    (hasObserver : Bool) : List TAct :=
  let tryOutcome : Option String × List TAct :=
    match result with
    | .ok t => (some t, [])
    | .error e => (none, [TAct.logTranscribeError e, TAct.printTranscribeError e])
  let finallyActs :=
    if unlinkOk then [TAct.unlink] else [TAct.unlink, TAct.logUnlinkFail]
  let acts := TAct.printTranscribing :: (tryOutcome.2 ++ finallyActs)
  match tryOutcome.1 with
  | none => acts
  | some t =>
      acts ++ (if hasObserver then [TAct.observerCallback t] else []) ++ [TAct.deliver t]

/-- Observable actions of `HotkeyTranscriber._deliver_transcript` (hotkeys.py
lines 207-266). -/
inductive DAct where
  | printTranscript (t : String)
  | printDurations
  | clipboardCopy (t : String)
  | logClipboardFail
  | sleepBeforePaste
  | pasteCombo
  | logPasteFail
  | typeText (t : String)
deriving DecidableEq, Repr

/-- `HotkeyTranscriber._deliver_transcript`: print the transcript; stop if
the text is empty; report the three session durations only when all three
timestamps are present; copy to the clipboard (`clipFails` = a
`PyperclipException`), falling back to typing the text character-by-
character; otherwise sleep briefly and send the paste key combination
(`pasteFails` = any exception there), falling back to the same typing
path. -/
def deliverTranscript (text : String) (recStart recStop trStart : Option Nat)
    (clipFails pasteFails : Bool) : List DAct :=
  let pre := [DAct.printTranscript text]
  if text = "" then pre
  else
    let pre := pre ++
      (match recStart, recStop, trStart with
       | some _, some _, some _ => [DAct.printDurations]
       | _, _, _ => [])
    if clipFails then
      pre ++ [DAct.clipboardCopy text, DAct.logClipboardFail, DAct.typeText text]
    else
      let pre := pre ++ [DAct.clipboardCopy text, DAct.sleepBeforePaste]
      if pasteFails then pre ++ [DAct.pasteCombo, DAct.logPasteFail, DAct.typeText text]
      else pre ++ [DAct.pasteCombo]

/-! ### Application wiring (src/simple_asr/app.py) -/

/-- Model of the provider as seen by `apply_settings`: its identity and the
vocabulary / max_new_tokens it can be reconfigured with (`CanaryProvider`
has `add_vocabulary`, `clear_vocabulary` and a `max_new_tokens` attribute,
so the `hasattr` guards in `apply_settings` all pass). -/
structure Provider where
  name : String
  modelId : Option String
  vocabulary : List String
  maxNewTokens : Nat
deriving DecidableEq, Repr

/-- `AppConfig` (app.py lines 18-48); `provider_options` is modelled by the
two keys `apply_settings` reads from it. `AppConfig.copy()` round-trips
through `to_dict`/`from_dict` and is the identity on these fields. -/
structure AppConfig where
  providerName : String
  hotkey : String
  modelId : Option String
  sampleRate : Nat
  vocabulary : List String
  maxNewTokens : Option Nat
deriving DecidableEq, Repr

/-- The listener fields `HotkeyTranscriber.update_hotkey` swaps (hotkeys.py
lines 302-307). -/
structure ListenerSt where
  hotkey : KeyType
  hotkeyLabel : String
deriving DecidableEq, Repr

/-- The `SimpleASRApp` state touched by `apply_settings`. -/
structure App where
  config : AppConfig
  provider : Provider
  recorder : Recorder
  listener : Option ListenerSt
deriving DecidableEq, Repr

/-- `CanaryProvider.add_vocabulary` (canary.py lines 130-132): strip the
phrases, drop the empty ones, and extend the vocabulary with those not
already present (the generator consumed by `list.extend` sees earlier
appends, hence the fold). -/
def addVocabulary (p : Provider) (phrases : List String) : Provider :=
  let normalized := (phrases.map pyStrip).filter (fun ph => ph ≠ "")
  let extended :=
    normalized.foldl (fun acc ph => if ph ∈ acc then acc else acc ++ [ph]) p.vocabulary
  { p with vocabulary := extended }

/-- `SimpleASRApp.apply_settings` (app.py lines 96-131). Python mutates
`self` in place and may raise, so the model returns the post state together
with `some errorMessage` when an exception escapes. Steps in source order:
hotkey swap (only when a listener exists; `_normalize_hotkey` may raise),
recorder replacement on a sample-rate change, the provider/model identity
guard (raises `ValueError`), vocabulary diff and re-application,
max_new_tokens update, and finally the `self.config` replacement. -/
def applySettings (app : App) (newC : AppConfig) : App × Option String :=
  let step1 : App × Option String :=
    if newC.hotkey ≠ app.config.hotkey then
      match app.listener with
      | some _ =>
          match normalizeHotkey newC.hotkey with
          | .error e => (app, some e)
          | .ok (k, label) =>
              ({ app with listener := some { hotkey := k, hotkeyLabel := label } }, none)
      | none => (app, none)
    else (app, none)
  match step1 with
  | (a, some e) => (a, some e)
  | (a, none) =>
      let a :=
        if newC.sampleRate ≠ a.config.sampleRate then
          { a with recorder := Recorder.init newC.sampleRate }
        else a
      if newC.providerName ≠ a.config.providerName ∨ newC.modelId ≠ a.config.modelId then
        (a, some "Switching providers or model IDs at runtime is not yet supported.")
      else
        let a :=
          if newC.vocabulary ≠ a.config.vocabulary then
            let p := { a.provider with vocabulary := [] }
            let p := if newC.vocabulary ≠ [] then addVocabulary p newC.vocabulary else p
            { a with provider := p }
          else a
        let a :=
          match newC.maxNewTokens with
          | some m =>
              if newC.maxNewTokens ≠ a.config.maxNewTokens then
                { a with provider := { a.provider with maxNewTokens := m } }
              else a
          | none => a
        ({ a with config := newC }, none)

/-! ### Vocabulary persistence (src/simple_asr/vocabulary.py)

`load_vocabulary` reads a TOML document; what matters to it is whether the
file exists, whether it parses, and what the top-level `phrases` /
`vocabulary` fields hold (a list whose items may or may not be strings, or
some other value). `save_vocabulary` writes a document whose `phrases`
field holds the normalized phrases; the JSON escaping it uses for each
phrase is valid TOML basic-string escaping, so each phrase round-trips
through the file unchanged and the written file is modelled by the parsed
document it denotes. -/

/-- An item of a parsed TOML array: a string or something else. -/
inductive TomlItem where
  | str (s : String)
  | nonStr
deriving DecidableEq, Repr

/-- A parsed TOML field value: an array, or some other value with the given
Python truthiness. -/
inductive TomlValue where
  | list (items : List TomlItem)
  | other (truthy : Bool)
deriving DecidableEq, Repr

/-- Python truthiness of a parsed TOML value (an empty array is falsy). -/
def tomlTruthy : TomlValue → Bool
  | .list items => decide (items ≠ [])
  | .other t => t

/-- The two top-level fields `load_vocabulary` reads (`data.get` returns
`none` when the field is absent). -/
structure VocabDoc where
  phrases : Option TomlValue
  vocabulary : Option TomlValue
deriving DecidableEq, Repr

/-- The vocabulary file as `load_vocabulary` sees it. -/
inductive VocabFile where
  | missing
  | unparseable
  | parsed (doc : VocabDoc)
deriving DecidableEq, Repr

/-- Python `a or b` applied to the two `data.get(...)` results. -/
def pyOr (a b : Option TomlValue) : Option TomlValue :=
  match a with
  | some v => if tomlTruthy v then some v else b
  | none => b

/-- The normalization step shared by the loops of `load_vocabulary` (lines
33-37) and `save_vocabulary` (lines 45-48): strip the phrase, then append
it if it is non-empty and not already present. -/
def phraseFold (acc : List String) (ph : String) : List String :=
  let ph := pyStrip ph
  if ph ≠ "" ∧ ph ∉ acc then acc ++ [ph] else acc

/-- The whole normalization loop of `save_vocabulary`. -/
def normalizePhrases (phrases : List String) : List String :=
  phrases.foldl phraseFold []

/-- `load_vocabulary` (vocabulary.py lines 18-38): `[]` for a missing or
unparseable file or when the selected field is not a list; otherwise the
string items, stripped, de-emptied and de-duplicated in order. -/
def loadVocabulary (f : VocabFile) : List String :=
  match f with
  | .missing => []
  | .unparseable => []
  | .parsed doc =>
      match pyOr doc.phrases doc.vocabulary with
      | some (.list items) =>
          items.foldl
            (fun acc item =>
              match item with
              | .str s => phraseFold acc s
              | .nonStr => acc) []
      | _ => []

/-- `save_vocabulary` (vocabulary.py lines 41-56), composed with parsing the
file it wrote: a document whose `phrases` field holds exactly the
normalized phrases. -/
def saveVocabulary (phrases : List String) : VocabFile :=
  .parsed { phrases := some (.list ((normalizePhrases phrases).map TomlItem.str)),
            vocabulary := none }

/-- Modelled from the words of the C10 claim (not from the code):
first-occurrence de-duplication. -/
def dedupFirst : List String → List String
  | [] => []
  | x :: xs => x :: dedupFirst (xs.filter (fun y => y ≠ x))
termination_by l => l.length
decreasing_by
  simp only [List.length_cons]
  exact Nat.lt_succ_of_le (List.length_filter_le _ _)

/-- Modelled from the words of the C10 claim: the input phrases with
surrounding whitespace stripped, empty strings removed, and duplicates
removed keeping the first occurrence, in the original order. -/
def claimNormalize (phrases : List String) : List String :=
  dedupFirst ((phrases.map pyStrip).filter (fun ph => ph ≠ ""))

/-! ## Theorems -/

/-- Structure eta for `Recorder`. -/
theorem Recorder.eta (r : Recorder) :
    r = { stream := r.stream, frames := r.frames, sampleRate := r.sampleRate } := rfl

theorem Recorder.callbacks_frames (r : Recorder) (ds : List Frame) :
    (r.callbacks ds).frames = r.frames ++ ds ∧
    (r.callbacks ds).stream = r.stream ∧
    (r.callbacks ds).sampleRate = r.sampleRate := by
  induction ds generalizing r with
  | nil => simp [Recorder.callbacks]
  | cons d ds ih =>
      have h := ih (r.callback d)
      simpa [Recorder.callbacks, Recorder.callback, List.append_assoc] using h

theorem Recorder.start_success_state (r : Recorder)
    (hna : r.hasActiveStream = false) :
    r.start false =
      ({ stream := some { active := true }, frames := [],
         sampleRate := r.sampleRate }, false) := by
  unfold Recorder.hasActiveStream at hna
  unfold Recorder.start Recorder.startStream
  cases h : r.stream with
  | none => simp
  | some s =>
      rw [h] at hna
      simp only [] at hna
      simp [hna]

/-- Behaviour of `stop` on a recorder holding a stream, with the write
succeeding. -/
theorem Recorder.stop_spec (st sf : Bool) (ds : List Frame) (rate : Nat) :
    (Recorder.stop { stream := some { active := st }, frames := ds, sampleRate := rate }
        sf false).2.1 = (if ds = [] then none else some ds.flatten) ∧
    (Recorder.stop { stream := some { active := st }, frames := ds, sampleRate := rate }
        sf false).1.frames = [] := by
  unfold Recorder.stop
  cases st <;> cases sf <;> cases ds <;> simp

/-- C4: `AudioRecorder.start()` is idempotent while a stream is active (the
call returns without touching the stream or the buffered frames), and on a
start failure the stream handle is closed and discarded, the error is
re-raised, and the recorder is left equivalent to a freshly constructed one
(no stream handle held). -/
theorem recorder_start_idempotent_and_failure (r : Recorder) (sf : Bool) :
    (r.hasActiveStream = true → r.start sf = (r, false)) ∧
    (r.hasActiveStream = false → r.start true = (Recorder.init r.sampleRate, true)) := by
  constructor
  · intro h
    unfold Recorder.hasActiveStream at h
    unfold Recorder.start
    cases hs : r.stream with
    | none => rw [hs] at h; simp at h
    | some s => rw [hs] at h; simp only [] at h; simp [h]
  · intro h
    unfold Recorder.hasActiveStream at h
    unfold Recorder.start Recorder.startStream Recorder.init
    cases hs : r.stream with
    | none => simp
    | some s => rw [hs] at h; simp only [] at h; simp [h]

/-- C4 witness: a fresh recorder has no active stream; starting it with a
failing underlying stream re-raises and leaves it fresh-equivalent. -/
theorem recorder_start_idempotent_and_failure_witness :
    ({ stream := some { active := true }, frames := [[7]], sampleRate := 16000 } :
        Recorder).hasActiveStream = true ∧
    (Recorder.init 16000).hasActiveStream = false ∧
    ({ stream := some { active := true }, frames := [[7]], sampleRate := 16000 } :
        Recorder).start false =
      ({ stream := some { active := true }, frames := [[7]], sampleRate := 16000 }, false) ∧
    (Recorder.init 16000).start true = (Recorder.init 16000, true) := by
  refine ⟨by decide, by decide, ?_, ?_⟩
  · exact (recorder_start_idempotent_and_failure
      { stream := some { active := true }, frames := [[7]], sampleRate := 16000 }
      false).1 (by decide)
  · exact (recorder_start_idempotent_and_failure (Recorder.init 16000) false).2 (by decide)

/-- C2: `AudioRecorder.stop()` returns `None` and creates no file when no
stream exists; after a successful `start()` (from a not-actively-streaming
recorder) followed by the capture callback firing on the buffers `ds` in
arrival order, `stop()` returns `None` when `ds` is empty and otherwise the
newly written file holding exactly the concatenation of `ds`, leaving the
frame buffer empty. -/
theorem recorder_stop_roundtrip (r : Recorder) (ds : List Frame) (sf : Bool)
    (hna : r.hasActiveStream = false) :
    (∀ (q : Recorder) (sf2 wf : Bool), q.stream = none → q.stop sf2 wf = (q, none, false)) ∧
    ((((r.start false).1.callbacks ds).stop sf false).2.1 =
      (if ds = [] then none else some ds.flatten)) ∧
    ((((r.start false).1.callbacks ds).stop sf false).1.frames = []) := by
  refine ⟨?_, ?_⟩
  · intro q sf2 wf hq
    unfold Recorder.stop
    rw [hq]
  · have h1 : (r.start false).1 =
        { stream := some { active := true }, frames := [], sampleRate := r.sampleRate } := by
      rw [Recorder.start_success_state r hna]
    rw [h1]
    have h2 := Recorder.callbacks_frames
      { stream := some { active := true }, frames := [], sampleRate := r.sampleRate } ds
    have h3 : ({ stream := some { active := true },
                 frames := [],
                 sampleRate := r.sampleRate } : Recorder).callbacks ds =
        { stream := some { active := true }, frames := ds, sampleRate := r.sampleRate } := by
      rw [Recorder.eta (Recorder.callbacks _ ds), h2.1, h2.2.1, h2.2.2]
      simp
    rw [h3]
    exact Recorder.stop_spec true sf ds r.sampleRate

/-- C2 witness: a concrete two-frame session round-trips into the
concatenated file content and leaves the buffer empty. -/
theorem recorder_stop_roundtrip_witness :
    (Recorder.init 16000).hasActiveStream = false ∧
    ((((Recorder.init 16000).start false).1.callbacks [[1, 2], [3]]).stop
        false false).2.1 = some [1, 2, 3] := by
  refine ⟨by decide, ?_⟩
  have h := (recorder_stop_roundtrip (Recorder.init 16000) [[1, 2], [3]] false
    (by decide)).2.1
  simpa using h

/-- C5 counterexample: with an active stream and one buffered frame, a
failure of the temporary-file write makes `stop()` raise to its caller; and
even a fully successful `stop()` keeps holding the (stopped) stream handle
rather than tearing it down. -/
theorem recorder_stop_never_raises_counterexample :
    ((Recorder.stop { stream := some { active := true },
                      frames := [[1]],
                      sampleRate := 16000 } false true).2.2 = true) ∧
    ((Recorder.stop { stream := some { active := true },
                      frames := [[1]],
                      sampleRate := 16000 } false false).1.stream =
      some { active := false }) := by
  decide

/-- C5 amended: `stop()` never raises as long as persisting the temporary
file succeeds (failures of the underlying stream stop are only logged), and
whenever it returns a file the frame buffer has been drained, but the
(stopped) stream handle is retained for reuse rather than torn down; a
temporary-file write failure is re-raised. `close()` never raises and always
leaves the recorder with no stream held and an empty frame buffer. -/
theorem recorder_stop_close_amended (r : Recorder) (sf cf : Bool) :
    ((r.stop sf false).2.2 = false) ∧
    ((r.stop sf false).2.1.isSome = true → (r.stop sf false).1.frames = []) ∧
    (r.close cf = { stream := none, frames := [], sampleRate := r.sampleRate }) ∧
    (r.hasActiveStream = true → sf = false →
      (r.stop sf false).1.stream = some { active := false }) := by
  obtain ⟨st, fr, sr⟩ := r
  refine ⟨?_, ?_, ?_, ?_⟩
  · cases st with
    | none => simp [Recorder.stop]
    | some s =>
        obtain ⟨sa⟩ := s
        cases sa <;> cases sf <;> by_cases hf : fr = [] <;> simp [Recorder.stop, hf]
  · cases st with
    | none => simp [Recorder.stop]
    | some s =>
        obtain ⟨sa⟩ := s
        cases sa <;> cases sf <;> by_cases hf : fr = [] <;> simp [Recorder.stop, hf]
  · cases st <;> simp [Recorder.close]
  · intro ha hsf
    cases st with
    | none => simp [Recorder.hasActiveStream] at ha
    | some s =>
        obtain ⟨sa⟩ := s
        simp [Recorder.hasActiveStream] at ha
        subst hsf
        by_cases hf : fr = [] <;> simp [Recorder.stop, ha, hf]

/-- C5 amended witness: concrete `stop()` and `close()` runs at a recorder
holding an active stream and one frame. -/
theorem recorder_stop_close_amended_witness :
    (({ stream := some { active := true }, frames := [[4]], sampleRate := 8000 } :
        Recorder).stop false false).2.2 = false ∧
    (({ stream := some { active := true }, frames := [[4]], sampleRate := 8000 } :
        Recorder).close true) = { stream := none, frames := [], sampleRate := 8000 } := by
  have h := recorder_stop_close_amended
    { stream := some { active := true }, frames := [[4]], sampleRate := 8000 } false true
  exact ⟨h.1, h.2.2.1⟩

/-- A second `_request_shutdown` trigger is a no-op. -/
theorem requestShutdown_noop (s : HK) (env : HEnv)
    (h : s.shutdownRequested = true) : requestShutdown s env = (s, []) := by
  simp [requestShutdown, h]

/-- `_request_shutdown` never calls `recorder.start` and never dispatches a
transcription, on its raising path included. -/
theorem requestShutdown_no_start_no_dispatch (s : HK) (env : HEnv) :
    HAct.recorderStart ∉ (requestShutdown s env).2 ∧
    ∀ p, HAct.dispatchTranscription p ∉ (requestShutdown s env).2 := by
  unfold requestShutdown requestShutdownFinish
  by_cases h : s.shutdownRequested
  · simp [h]
  · by_cases hr : s.recording
    · cases hp : env.recorderStop with
      | error e => simp [h, hr, hp]
      | ok v =>
          cases v <;> by_cases hu : env.unlinkOk <;>
            by_cases hl : s.hasListener <;> simp [h, hr, hp, hu, hl]
    · by_cases hl : s.hasListener <;> simp [h, hr, hl]

/-- Once the shutdown latch is set, a single further event produces no
observable call at all and leaves the latch set. -/
theorem hstep_after_shutdown (s : HK) (e : HEvent) (h : s.shutdownRequested = true) :
    (hstep s e).2 = [] ∧ (hstep s e).1.shutdownRequested = true := by
  cases e with
  | press k env now =>
      simp only [hstep, onPress]
      by_cases hc : k.isCtrlKey <;>
        by_cases hcc : isCharC k <;>
          by_cases hca : s.ctrlActive <;>
            simp [hc, hcc, hca, requestShutdown, h]
  | release k env now =>
      simp only [hstep, onRelease]
      by_cases hc : k.isCtrlKey <;> simp [hc, h]
  | stopCall env =>
      simp [hstep, requestShutdown, h]

/-- Once the shutdown latch is set, a whole event sequence produces no
observable call and leaves the latch set. -/
theorem hrun_after_shutdown (s : HK) (evs : List HEvent)
    (h : s.shutdownRequested = true) :
    (hrun s evs).2 = [] ∧ (hrun s evs).1.shutdownRequested = true := by
  induction evs generalizing s with
  | nil => simpa [hrun] using h
  | cons e es ih =>
      have h1 := hstep_after_shutdown s e h
      have h2 := ih (hstep s e).1 h1.2
      simp [hrun, h1.1, h2.1, h2.2]

/-- `_request_shutdown` sets the latch (before the `recorder.stop()` call,
so also on the raising path) and clears the recording flag. -/
theorem requestShutdown_post (s : HK) (env : HEnv)
    (h : s.shutdownRequested = false) :
    (requestShutdown s env).1.shutdownRequested = true ∧
    (requestShutdown s env).1.recording = false := by
  unfold requestShutdown requestShutdownFinish
  by_cases hr : s.recording
  · cases hp : env.recorderStop with
    | error e => simp [h, hr, hp]
    | ok v =>
        cases v <;> by_cases hu : env.unlinkOk <;> simp [h, hr, hp, hu]
  · simp [h, hr]

/-- C1: a release while not `Recording` causes no `recorder.stop` call and no
transcription dispatch; a press while already `Recording` causes no second
`recorder.start` call; and once the shutdown latch is set, no sequence of
further press/release/stop events starts a recording or dispatches a
transcription. -/
theorem hotkey_state_machine_safety (s : HK) (k : PKey) (env : HEnv) (now : Nat)
    (evs : List HEvent) :
    (s.recording = false →
      HAct.recorderStop ∉ (onRelease s k env now).2 ∧
      ∀ p, HAct.dispatchTranscription p ∉ (onRelease s k env now).2) ∧
    (s.recording = true → HAct.recorderStart ∉ (onPress s k env now).2) ∧
    (s.shutdownRequested = true →
      HAct.recorderStart ∉ (hrun s evs).2 ∧
      ∀ p, HAct.dispatchTranscription p ∉ (hrun s evs).2) := by
  refine ⟨?_, ?_, ?_⟩
  · intro h
    have hacts : (onRelease s k env now).2 = [] := by
      unfold onRelease
      by_cases hc : k.isCtrlKey <;>
        by_cases hs : s.shutdownRequested <;>
          by_cases hm : matchesHotkey s.hotkey k <;>
            simp [hc, hs, hm, h]
    simp [hacts]
  · intro h
    unfold onPress
    by_cases hc : k.isCtrlKey <;>
      by_cases hcc : isCharC k <;>
        by_cases hca : s.ctrlActive <;>
          by_cases hs : s.shutdownRequested <;>
            by_cases hm : matchesHotkey s.hotkey k <;>
              simp [hc, hcc, hca, hs, hm, h,
                requestShutdown_no_start_no_dispatch]
  · intro h
    have h1 := hrun_after_shutdown s evs h
    simp [h1.1]

/-- C1 witness: concrete states exercising each of the three safety clauses
(an idle listener, a recording listener, and a shut-down listener). -/
theorem hotkey_state_machine_safety_witness :
    ((HK.init (KeyType.special "f8")).recording = false ∧
      HAct.recorderStop ∉
        (onRelease (HK.init (KeyType.special "f8")) (PKey.special "f8")
          { recorderStartOk := true, recorderStop := Except.ok (some 0), unlinkOk := true }
          5).2) ∧
    (({ HK.init (KeyType.special "f8") with recording := true } : HK).recording = true ∧
      HAct.recorderStart ∉
        (onPress ({ HK.init (KeyType.special "f8") with recording := true })
          (PKey.special "f8")
          { recorderStartOk := true, recorderStop := Except.ok (some 0), unlinkOk := true }
          5).2) ∧
    (({ HK.init (KeyType.special "f8") with shutdownRequested := true } : HK).shutdownRequested
        = true ∧
      HAct.recorderStart ∉
        (hrun ({ HK.init (KeyType.special "f8") with shutdownRequested := true })
          [HEvent.press (PKey.special "f8")
            { recorderStartOk := true, recorderStop := Except.ok (some 0), unlinkOk := true }
            7]).2) := by
  refine ⟨⟨rfl, ?_⟩, ⟨rfl, ?_⟩, ⟨rfl, ?_⟩⟩
  · exact ((hotkey_state_machine_safety (HK.init (KeyType.special "f8"))
      (PKey.special "f8")
      { recorderStartOk := true, recorderStop := Except.ok (some 0), unlinkOk := true }
      5 []).1 rfl).1
  · exact (hotkey_state_machine_safety
      ({ HK.init (KeyType.special "f8") with recording := true })
      (PKey.special "f8")
      { recorderStartOk := true, recorderStop := Except.ok (some 0), unlinkOk := true }
      5 []).2.1 rfl
  · exact ((hotkey_state_machine_safety
      ({ HK.init (KeyType.special "f8") with shutdownRequested := true })
      (PKey.special "f8")
      { recorderStartOk := true, recorderStop := Except.ok (some 0), unlinkOk := true }
      5
      [HEvent.press (PKey.special "f8")
        { recorderStartOk := true, recorderStop := Except.ok (some 0), unlinkOk := true }
        7]).2.2 rfl).1

/-- C6 counterexample: a shutdown requested while recording, with
`recorder.stop()` raising (the temp-file persistence failure of
`AudioRecorder.stop`, cf. the C5 counterexample). The `recorder.stop()`
call at hotkeys.py line 279 is outside any try, so the exception escapes
`_request_shutdown` before lines 289-297 run: the timestamps are NOT reset
(`recordStartedAt` keeps its value), the stop event is NOT set, and the
blocking `start()` call does not unblock — contradicting the claim's
unconditional conclusions. -/
theorem request_shutdown_counterexample :
    (requestShutdown
        { HK.init (KeyType.special "f8") with recording := true,
                                              recordStartedAt := some 5 }
        { recorderStartOk := true, recorderStop := Except.error (),
          unlinkOk := true }).1.recordStartedAt = some 5 ∧
    (requestShutdown
        { HK.init (KeyType.special "f8") with recording := true,
                                              recordStartedAt := some 5 }
        { recorderStartOk := true, recorderStop := Except.error (),
          unlinkOk := true }).1.stopEventSet = false ∧
    startCallUnblocked
      (requestShutdown
        { HK.init (KeyType.special "f8") with recording := true,
                                              recordStartedAt := some 5 }
        { recorderStartOk := true, recorderStop := Except.error (),
          unlinkOk := true }).1 = false ∧
    HAct.escapedException ∈
      (requestShutdown
        { HK.init (KeyType.special "f8") with recording := true,
                                              recordStartedAt := some 5 }
        { recorderStartOk := true, recorderStop := Except.error (),
          unlinkOk := true }).2 := by
  decide

/-- C6 amended: requesting shutdown (Ctrl held + "c" pressed, or an explicit
`stop()` call) sets the latch once — before the recorder is touched, so a
second trigger is a no-op even after an aborted first one; if recording,
`recorder.stop()` is called and any file it returns is deleted without ever
being transcribed; PROVIDED that `recorder.stop()` returns normally (it can
raise when persisting the temp file fails, cf. C5), the three timestamps
are reset and the stop event is set, so the blocking `start()` call
unblocks and reports the shutdown by raising `KeyboardInterrupt`; if
`recorder.stop()` raises instead, the exception escapes `_request_shutdown`
and the timestamps, the stop event and the listener are left untouched. -/
theorem request_shutdown_correct (s : HK) (env env2 : HEnv) (now : Nat) :
    (s.shutdownRequested = true → requestShutdown s env = (s, [])) ∧
    (s.ctrlActive = true → onPress s (PKey.charKey "c") env now = requestShutdown s env) ∧
    (hstep s (HEvent.stopCall env) = requestShutdown s env) ∧
    (s.shutdownRequested = false →
      (requestShutdown s env).1.shutdownRequested = true ∧
      (requestShutdown s env).1.recording = false ∧
      requestShutdown (requestShutdown s env).1 env2 = ((requestShutdown s env).1, []) ∧
      (∀ p, HAct.dispatchTranscription p ∉ (requestShutdown s env).2) ∧
      (s.recording = true →
        HAct.recorderStop ∈ (requestShutdown s env).2 ∧
        ∀ p, env.recorderStop = Except.ok (some p) →
          HAct.unlinkFile p ∈ (requestShutdown s env).2) ∧
      ((s.recording = true → env.recorderStop.isOk = true) →
        (requestShutdown s env).1.recordStartedAt = none ∧
        (requestShutdown s env).1.recordStoppedAt = none ∧
        (requestShutdown s env).1.transcribeStartedAt = none ∧
        startCallUnblocked (requestShutdown s env).1 = true ∧
        startCallReportsShutdown (requestShutdown s env).1 = true) ∧
      (s.recording = true → env.recorderStop = Except.error () →
        HAct.escapedException ∈ (requestShutdown s env).2 ∧
        (requestShutdown s env).1.stopEventSet = s.stopEventSet ∧
        (requestShutdown s env).1.recordStartedAt = s.recordStartedAt ∧
        (requestShutdown s env).1.recordStoppedAt = s.recordStoppedAt ∧
        (requestShutdown s env).1.transcribeStartedAt = s.transcribeStartedAt)) := by
  refine ⟨?_, ?_, ?_, ?_⟩
  · intro h
    simp [requestShutdown, h]
  · intro h
    have hck : (PKey.charKey "c").isCtrlKey = false := by decide
    have hcc : isCharC (PKey.charKey "c") = true := by decide
    simp [onPress, hck, hcc, h]
  · rfl
  · intro h
    have hpost := requestShutdown_post s env h
    refine ⟨hpost.1, hpost.2, requestShutdown_noop _ env2 hpost.1,
      (requestShutdown_no_start_no_dispatch s env).2, ?_, ?_, ?_⟩
    · intro hr
      unfold requestShutdown requestShutdownFinish
      cases hp : env.recorderStop with
      | error e => simp [h, hr, hp]
      | ok v =>
          cases v <;> by_cases hu : env.unlinkOk <;>
            by_cases hl : s.hasListener <;> simp [h, hr, hp, hu, hl]
    · intro hok
      unfold requestShutdown requestShutdownFinish startCallUnblocked
        startCallReportsShutdown
      by_cases hr : s.recording
      · cases hp : env.recorderStop with
        | error e =>
            rw [hp] at hok
            simp [Except.isOk, Except.toBool] at hok
            exact absurd hr (by simp [hok])
        | ok v =>
            cases v <;> by_cases hu : env.unlinkOk <;>
              by_cases hl : s.hasListener <;> simp [h, hr, hp, hu, hl]
      · by_cases hl : s.hasListener <;> simp [h, hr, hl]
    · intro hr hp
      unfold requestShutdown requestShutdownFinish
      simp [h, hr, hp]

/-- C6 amended witness: a concrete shutdown while recording whose
`recorder.stop()` returns file `3`: the file is deleted, nothing is
dispatched, the timestamps are reset, the blocking call unblocks and
reports shutdown, and a second trigger is a no-op. -/
theorem request_shutdown_correct_witness :
    ({ HK.init (KeyType.special "f8") with recording := true } : HK).shutdownRequested
      = false ∧
    ({ HK.init (KeyType.special "f8") with recording := true } : HK).recording = true ∧
    HAct.unlinkFile 3 ∈
      (requestShutdown ({ HK.init (KeyType.special "f8") with recording := true })
        { recorderStartOk := true, recorderStop := Except.ok (some 3),
          unlinkOk := true }).2 ∧
    (requestShutdown ({ HK.init (KeyType.special "f8") with recording := true })
        { recorderStartOk := true, recorderStop := Except.ok (some 3),
          unlinkOk := true }).1.recordStartedAt = none ∧
    startCallUnblocked
      (requestShutdown ({ HK.init (KeyType.special "f8") with recording := true })
        { recorderStartOk := true, recorderStop := Except.ok (some 3),
          unlinkOk := true }).1 = true ∧
    startCallReportsShutdown
      (requestShutdown ({ HK.init (KeyType.special "f8") with recording := true })
        { recorderStartOk := true, recorderStop := Except.ok (some 3),
          unlinkOk := true }).1 = true := by
  have h := (request_shutdown_correct
    ({ HK.init (KeyType.special "f8") with recording := true })
    { recorderStartOk := true, recorderStop := Except.ok (some 3), unlinkOk := true }
    { recorderStartOk := true, recorderStop := Except.ok (some 3), unlinkOk := true }
    0).2.2.2 rfl
  have hres := h.2.2.2.2.2.1 (fun _ => rfl)
  exact ⟨rfl, rfl, (h.2.2.2.2.1 rfl).2 3 rfl, hres.1, hres.2.2.2.1, hres.2.2.2.2⟩

/-- C3: the background transcription unit deletes the temporary file exactly
once whether `provider.transcribe` returns text or raises; when it raises
the error is logged and reported and no delivery occurs; a failure of the
deletion itself is only logged — the unit still completes, and on success
the text is still delivered. -/
theorem transcribe_cleanup (result : Except String String) (uk ho : Bool) :
    ((transcribeUnit result uk ho).count TAct.unlink = 1) ∧
    (∀ e, result = Except.error e →
      TAct.logTranscribeError e ∈ transcribeUnit result uk ho ∧
      TAct.printTranscribeError e ∈ transcribeUnit result uk ho ∧
      ∀ t, TAct.deliver t ∉ transcribeUnit result uk ho) ∧
    (uk = false →
      TAct.logUnlinkFail ∈ transcribeUnit result uk ho ∧
      ∀ t, result = Except.ok t → TAct.deliver t ∈ transcribeUnit result uk ho) := by
  refine ⟨?_, ?_, ?_⟩
  · cases result <;> cases uk <;> cases ho <;>
      simp [transcribeUnit, List.count_cons, List.count_append]
  · rintro e rfl
    cases uk <;> cases ho <;> simp [transcribeUnit]
  · rintro rfl
    refine ⟨?_, ?_⟩
    · cases result <;> cases ho <;> simp [transcribeUnit]
    · rintro t rfl
      cases ho <;> simp [transcribeUnit]

/-- C3 witness: a raising provider call with a succeeding deletion, and a
succeeding provider call with a failing deletion. -/
theorem transcribe_cleanup_witness :
    ((transcribeUnit (Except.error "boom") true false).count TAct.unlink = 1) ∧
    (TAct.printTranscribeError "boom" ∈ transcribeUnit (Except.error "boom") true false) ∧
    (∀ t, TAct.deliver t ∉ transcribeUnit (Except.error "boom") true false) ∧
    (TAct.deliver "hi" ∈ transcribeUnit (Except.ok "hi") false true) := by
  have h := transcribe_cleanup (Except.error "boom") true false
  have h2 := transcribe_cleanup (Except.ok "hi") false true
  exact ⟨h.1, (h.2.1 "boom" rfl).2.1, (h.2.1 "boom" rfl).2.2,
    (h2.2.2 rfl).2 "hi" rfl⟩

/-- C7: empty recognized text triggers no delivery action at all (no
clipboard write, no keystrokes); otherwise the text is copied to the
clipboard and, after the short sleep, the paste combination is sent; a
clipboard failure falls back to typing the text character-by-character (and
no paste is attempted); a paste failure after a successful clipboard write
falls back to the same typing path; when both succeed nothing is typed. -/
theorem deliver_transcript_policy (text : String) (rs rp ts : Option Nat)
    (cf pf : Bool) :
    (text = "" →
      (∀ t, DAct.clipboardCopy t ∉ deliverTranscript text rs rp ts cf pf) ∧
      DAct.pasteCombo ∉ deliverTranscript text rs rp ts cf pf ∧
      (∀ t, DAct.typeText t ∉ deliverTranscript text rs rp ts cf pf)) ∧
    (text ≠ "" →
      DAct.clipboardCopy text ∈ deliverTranscript text rs rp ts cf pf ∧
      (cf = true →
        DAct.typeText text ∈ deliverTranscript text rs rp ts cf pf ∧
        DAct.pasteCombo ∉ deliverTranscript text rs rp ts cf pf) ∧
      (cf = false →
        DAct.sleepBeforePaste ∈ deliverTranscript text rs rp ts cf pf ∧
        DAct.pasteCombo ∈ deliverTranscript text rs rp ts cf pf ∧
        (pf = true → DAct.typeText text ∈ deliverTranscript text rs rp ts cf pf) ∧
        (pf = false → ∀ t, DAct.typeText t ∉ deliverTranscript text rs rp ts cf pf))) := by
  constructor
  · intro h
    subst h
    simp [deliverTranscript]
  · intro h
    rcases rs with _ | a <;> rcases rp with _ | b <;> rcases ts with _ | c <;>
      cases cf <;> cases pf <;>
        simp [deliverTranscript, h]

/-- C7 witness: concrete delivery runs covering the empty-text, happy-path
and clipboard-failure cases. -/
theorem deliver_transcript_policy_witness :
    (DAct.pasteCombo ∉ deliverTranscript "" (some 1) (some 2) (some 3) false false) ∧
    (DAct.clipboardCopy "hello world" ∈
      deliverTranscript "hello world" (some 1) (some 2) (some 3) false false) ∧
    (DAct.pasteCombo ∈
      deliverTranscript "hello world" (some 1) (some 2) (some 3) false false) ∧
    (DAct.typeText "hello world" ∈
      deliverTranscript "hello world" (some 1) (some 2) (some 3) true false) := by
  have h0 := (deliver_transcript_policy "" (some 1) (some 2) (some 3) false false).1 rfl
  have h1 := (deliver_transcript_policy "hello world" (some 1) (some 2) (some 3)
    false false).2 (by decide)
  have h2 := (deliver_transcript_policy "hello world" (some 1) (some 2) (some 3)
    true false).2 (by decide)
  exact ⟨h0.2.1, h1.1, (h1.2.2 rfl).2.1, (h2.2.1 rfl).1⟩

/-- C8 counterexample: the control character U+0001 is not in the claim's
supported set (it is not printable and not a named key), yet
`_normalize_hotkey` accepts it instead of raising a configuration error:
the code accepts ANY single non-whitespace character. -/
theorem normalize_hotkey_counterexample :
    claimSupportedHotkey "\x01" = false ∧ (normalizeHotkey "\x01").isOk = true := by
  decide

/-- C8 amended: normalization is deterministic and depends only on the
stripped, lower-cased input (so two strings differing only in case or
surrounding whitespace normalize to the same key identity), and it succeeds
exactly on the strings whose stripped lower-casing is a named key or any
single character (printable or not); empty-after-strip and longer
unrecognized strings raise a `ValueError` at normalization time. -/
theorem normalize_hotkey_amended (s t : String) :
    (pyLower (pyStrip s) = pyLower (pyStrip t) →
      (normalizeHotkey s).toOption = (normalizeHotkey t).toOption) ∧
    ((normalizeHotkey s).isOk = true ↔
      (pyLower (pyStrip s) ≠ "" ∧
        ((SPECIAL_KEYS.lookup (pyLower (pyStrip s))).isSome = true ∨
          (pyLower (pyStrip s)).length = 1))) := by
  constructor
  · intro h
    unfold normalizeHotkey
    rw [h]
    by_cases he : pyLower (pyStrip t) = "" <;>
      cases hl : SPECIAL_KEYS.lookup (pyLower (pyStrip t)) <;>
        by_cases h1 : (pyLower (pyStrip t)).length = 1 <;>
          simp [he, hl, h1, Except.toOption]
  · unfold normalizeHotkey
    by_cases he : pyLower (pyStrip s) = "" <;>
      cases hl : SPECIAL_KEYS.lookup (pyLower (pyStrip s)) <;>
        by_cases h1 : (pyLower (pyStrip s)).length = 1 <;>
          simp [he, hl, h1, Except.isOk, Except.toBool, Except.toOption]

/-- C8 amended witness: "F8" and " f8 " differ only in case and surrounding
whitespace and normalize to the same key identity; "F8" is accepted. -/
theorem normalize_hotkey_amended_witness :
    (pyLower (pyStrip "F8") = pyLower (pyStrip " f8 ")) ∧
    ((normalizeHotkey "F8").toOption = (normalizeHotkey " f8 ").toOption) ∧
    ((normalizeHotkey "F8").isOk = true) := by
  have h := normalize_hotkey_amended "F8" " f8 "
  refine ⟨by decide, h.1 (by decide), h.2.mpr (by decide)⟩

/-- C9: whenever the new configuration changes the provider name or the
model identifier, `apply_settings` fails with an error and does not apply a
half-reconfigured provider: the provider (its vocabulary and
max_new_tokens included) is left unchanged and `self.config` is not
replaced. -/
theorem apply_settings_identity_guard (app : App) (newC : AppConfig)
    (h : newC.providerName ≠ app.config.providerName ∨
      newC.modelId ≠ app.config.modelId) :
    ((applySettings app newC).2).isSome = true ∧
    (applySettings app newC).1.provider = app.provider ∧
    (applySettings app newC).1.config = app.config := by
  unfold applySettings
  by_cases hk : newC.hotkey = app.config.hotkey <;>
    cases hl : app.listener <;>
      cases hn : normalizeHotkey newC.hotkey <;>
        by_cases hs : newC.sampleRate = app.config.sampleRate <;>
          simp [hk, hl, hn, hs, h]

/-- C9 witness: a concrete settings update switching the provider name fails
and leaves the provider and stored config unchanged. -/
theorem apply_settings_identity_guard_witness :
    (({ providerName := "whisper", hotkey := "f8", modelId := none,
        sampleRate := 16000, vocabulary := [], maxNewTokens := none } :
        AppConfig).providerName ≠
      ({ config := { providerName := "canary", hotkey := "f8", modelId := none,
                     sampleRate := 16000, vocabulary := [], maxNewTokens := none },
         provider := { name := "canary", modelId := none, vocabulary := ["kappa"],
                       maxNewTokens := 128 },
         recorder := Recorder.init 16000,
         listener := none } : App).config.providerName ∨
      ({ providerName := "whisper", hotkey := "f8", modelId := none,
         sampleRate := 16000, vocabulary := [], maxNewTokens := none } :
         AppConfig).modelId ≠
      ({ config := { providerName := "canary", hotkey := "f8", modelId := none,
                     sampleRate := 16000, vocabulary := [], maxNewTokens := none },
         provider := { name := "canary", modelId := none, vocabulary := ["kappa"],
                       maxNewTokens := 128 },
         recorder := Recorder.init 16000,
         listener := none } : App).config.modelId) ∧
    ((applySettings
        { config := { providerName := "canary", hotkey := "f8", modelId := none,
                      sampleRate := 16000, vocabulary := [], maxNewTokens := none },
          provider := { name := "canary", modelId := none, vocabulary := ["kappa"],
                        maxNewTokens := 128 },
          recorder := Recorder.init 16000,
          listener := none }
        { providerName := "whisper", hotkey := "f8", modelId := none,
          sampleRate := 16000, vocabulary := [], maxNewTokens := none }).2).isSome
      = true ∧
    (applySettings
        { config := { providerName := "canary", hotkey := "f8", modelId := none,
                      sampleRate := 16000, vocabulary := [], maxNewTokens := none },
          provider := { name := "canary", modelId := none, vocabulary := ["kappa"],
                        maxNewTokens := 128 },
          recorder := Recorder.init 16000,
          listener := none }
        { providerName := "whisper", hotkey := "f8", modelId := none,
          sampleRate := 16000, vocabulary := [], maxNewTokens := none }).1.provider
      = { name := "canary", modelId := none, vocabulary := ["kappa"],
          maxNewTokens := 128 } := by
  have h := apply_settings_identity_guard
    { config := { providerName := "canary", hotkey := "f8", modelId := none,
                  sampleRate := 16000, vocabulary := [], maxNewTokens := none },
      provider := { name := "canary", modelId := none, vocabulary := ["kappa"],
                    maxNewTokens := 128 },
      recorder := Recorder.init 16000,
      listener := none }
    { providerName := "whisper", hotkey := "f8", modelId := none,
      sampleRate := 16000, vocabulary := [], maxNewTokens := none }
    (Or.inl (by decide))
  exact ⟨Or.inl (by decide), h.1, h.2.1⟩

/-- The head of a `dropWhile` result fails the predicate. -/
theorem head?_dropWhile_false {α : Type} (p : α → Bool) (l : List α) :
    ∀ b, (List.dropWhile p l).head? = some b → p b = false := by
  induction l with
  | nil => intro b h; simp at h
  | cons a l ih =>
      intro b h
      by_cases hp : p a
      · rw [List.dropWhile_cons, if_pos hp] at h
        exact ih b h
      · rw [List.dropWhile_cons, if_neg hp] at h
        simp only [List.head?_cons, Option.some.injEq] at h
        subst h
        exact Bool.not_eq_true _ ▸ (by simpa using hp)

/-- Stripping from the right leaves the left end untouched: dropping
whitespace again from the left of the result is the identity. -/
theorem dropWhile_rdropWhile_eq {α : Type} (p : α → Bool) (l : List α) :
    List.dropWhile p (List.rdropWhile p (List.dropWhile p l)) =
      List.rdropWhile p (List.dropWhile p l) := by
  cases hB : List.rdropWhile p (List.dropWhile p l) with
  | nil => simp
  | cons b bs =>
      obtain ⟨t, ht⟩ := List.rdropWhile_prefix p (List.dropWhile p l)
      rw [hB] at ht
      have h? : (List.dropWhile p l).head? = some b := by
        rw [← ht]; rfl
      have hpb := head?_dropWhile_false p l b h?
      simp [List.dropWhile_cons, hpb]

/-- Python `strip` is idempotent. -/
theorem pyStrip_idem (s : String) : pyStrip (pyStrip s) = pyStrip s := by
  unfold pyStrip
  congr 1
  show List.rdropWhile Char.isWhitespace (List.dropWhile Char.isWhitespace
      (List.rdropWhile Char.isWhitespace
        (List.dropWhile Char.isWhitespace s.data))) =
    List.rdropWhile Char.isWhitespace (List.dropWhile Char.isWhitespace s.data)
  rw [dropWhile_rdropWhile_eq, List.rdropWhile_idempotent]

/-- The normalization fold preserves strippedness, nonemptiness and
`Nodup` of its accumulator. -/
theorem foldl_phraseFold_inv (phrases : List String) (acc : List String)
    (hacc : (∀ z ∈ acc, pyStrip z = z ∧ z ≠ "") ∧ acc.Nodup) :
    (∀ z ∈ phrases.foldl phraseFold acc, pyStrip z = z ∧ z ≠ "") ∧
    (phrases.foldl phraseFold acc).Nodup := by
  induction phrases generalizing acc with
  | nil => simpa using hacc
  | cons ph phs ih =>
      rw [List.foldl_cons]
      apply ih
      simp only [phraseFold]
      by_cases hc : pyStrip ph ≠ "" ∧ pyStrip ph ∉ acc
      · rw [if_pos hc]
        refine ⟨?_, ?_⟩
        · intro z hz
          rcases List.mem_append.mp hz with h | h
          · exact hacc.1 z h
          · simp only [List.mem_singleton] at h
            subst h
            exact ⟨pyStrip_idem ph, hc.1⟩
        · simp [List.nodup_append, hacc.2, hc.2]
      · rw [if_neg hc]
        exact hacc

/-- Folding the normalization over already-normalized phrases disjoint from
the accumulator just appends them. -/
theorem foldl_phraseFold_fixed (zs : List String) :
    ∀ acc, (∀ z ∈ zs, pyStrip z = z ∧ z ≠ "" ∧ z ∉ acc) → zs.Nodup →
      zs.foldl phraseFold acc = acc ++ zs := by
  induction zs with
  | nil => intro acc _ _; simp
  | cons z zs ih =>
      intro acc hz hnd
      have hz0 := hz z (by simp)
      have hstep : phraseFold acc z = acc ++ [z] := by
        simp only [phraseFold, hz0.1]
        rw [if_pos ⟨hz0.2.1, hz0.2.2⟩]
      rw [List.foldl_cons, hstep, ih (acc ++ [z]) ?_ (List.nodup_cons.mp hnd).2]
      · simp
      · intro w hw
        have hw0 := hz w (by simp [hw])
        refine ⟨hw0.1, hw0.2.1, ?_⟩
        simp only [List.mem_append, List.mem_singleton, not_or]
        exact ⟨hw0.2.2, fun he => (List.nodup_cons.mp hnd).1 (he ▸ hw)⟩

/-- The save-then-parse loop is idempotent on phrase lists. -/
theorem normalizePhrases_idem (phrases : List String) :
    normalizePhrases (normalizePhrases phrases) = normalizePhrases phrases := by
  have h := foldl_phraseFold_inv phrases [] (by simp)
  unfold normalizePhrases
  rw [foldl_phraseFold_fixed (phrases.foldl phraseFold []) []
    (fun z hz => ⟨(h.1 z hz).1, (h.1 z hz).2, by simp⟩) h.2]
  simp

/-- Loading the file written by `save_vocabulary` recovers the normalized
phrases. -/
theorem load_save (phrases : List String) :
    loadVocabulary (saveVocabulary phrases) = normalizePhrases phrases := by
  by_cases hnp : normalizePhrases phrases = []
  · simp [loadVocabulary, saveVocabulary, pyOr, tomlTruthy, hnp]
  · have hne : (normalizePhrases phrases).map TomlItem.str ≠ [] := by
      simpa using hnp
    have hsel : pyOr (some (TomlValue.list ((normalizePhrases phrases).map TomlItem.str)))
        none = some (TomlValue.list ((normalizePhrases phrases).map TomlItem.str)) := by
      simp [pyOr, tomlTruthy, hne]
    simp only [loadVocabulary, saveVocabulary]
    rw [hsel]
    show ((normalizePhrases phrases).map TomlItem.str).foldl
        (fun acc item =>
          match item with
          | TomlItem.str s => phraseFold acc s
          | TomlItem.nonStr => acc) [] = normalizePhrases phrases
    rw [List.foldl_map]
    exact normalizePhrases_idem phrases

/-- The normalization fold, restricted to nonempty stripped phrases, is the
insertion fold. -/
theorem foldl_phraseFold_eq (phrases : List String) :
    ∀ acc, phrases.foldl phraseFold acc =
      ((phrases.map pyStrip).filter (fun ph => ph ≠ "")).foldl
        (fun acc y => if y ∉ acc then acc ++ [y] else acc) acc := by
  induction phrases with
  | nil => intro acc; rfl
  | cons ph phs ih =>
      intro acc
      by_cases he : pyStrip ph = ""
      · simp [List.foldl_cons, phraseFold, he, ih]
      · simp [List.foldl_cons, phraseFold, he, ih]

/-- The insertion fold produces the accumulator followed by the
first-occurrence de-duplication of the new elements. -/
theorem foldl_insert_dedupFirst (ys : List String) :
    ∀ acc, ys.foldl (fun acc y => if y ∉ acc then acc ++ [y] else acc) acc =
      acc ++ dedupFirst (ys.filter (fun y => y ∉ acc)) := by
  induction ys with
  | nil => intro acc; simp [dedupFirst]
  | cons y ys ih =>
      intro acc
      by_cases hy : y ∈ acc
      · rw [List.foldl_cons, if_neg (not_not_intro hy), ih acc, List.filter_cons]
        simp [hy]
      · have hff : ys.filter (fun z => decide (z ∉ acc ++ [y])) =
            (ys.filter (fun z => decide (z ∉ acc))).filter (fun z => decide (z ≠ y)) := by
          rw [List.filter_filter]
          apply List.filter_congr
          intro z _
          by_cases h1 : z ∈ acc <;> by_cases h2 : z = y <;>
            simp [h1, h2, List.mem_append]
        rw [List.foldl_cons, if_pos hy, ih (acc ++ [y]), List.filter_cons,
          if_pos (by simpa using hy)]
        rw [hff]
        simp [dedupFirst]

/-- C10: saving any phrase list and loading it back returns exactly the
input phrases with surrounding whitespace stripped, empty strings removed,
and duplicates removed keeping the first occurrence, in the original
order; and `load_vocabulary` returns `[]` for a missing or unparseable
file. -/
theorem vocabulary_roundtrip (phrases : List String) :
    loadVocabulary (saveVocabulary phrases) = claimNormalize phrases ∧
    loadVocabulary VocabFile.missing = [] ∧
    loadVocabulary VocabFile.unparseable = [] := by
  refine ⟨?_, rfl, rfl⟩
  rw [load_save]
  unfold normalizePhrases claimNormalize
  rw [foldl_phraseFold_eq, foldl_insert_dedupFirst]
  simp

end SimpleASR
